import Mathlib

/-!
Shallow embedding of the car-scoring engine (scoring.js, utils.js) of the
car-calculator browser extension.  JavaScript numbers are modelled as exact
rationals, absent fields as `Option`.  JS truthiness (`if (x)`, `x || d`) is
modelled explicitly: `0`, `""`, `null`, `undefined` and `false` are falsy.
-/

namespace CarScore

/-- JS `Math.round` on a finite number: round half away from zero is
`Math.round` only for positives; JS rounds half toward positive infinity,
i.e. `Math.round x = ⌊x + 1/2⌋`. -/
def mathRound (x : ℚ) : ℤ := ⌊x + 1/2⌋

/-- JS `Math.min` on two numbers. -/
def jsMin (a b : ℚ) : ℚ := if a ≤ b then a else b

/-- JS `Math.max` on two numbers. -/
def jsMax (a b : ℚ) : ℚ := if a ≤ b then b else a

/-- utils.js `clamp(value, min, max) = Math.min(Math.max(value, min), max)`. -/
def clamp (value mn mx : ℚ) : ℚ := jsMin (jsMax value mn) mx

/-- utils.js `normalize(value, min, max)`: 0 when the range is degenerate,
else `(value-min)/(max-min)` clamped to `[0,1]`. -/
def normalize (value mn mx : ℚ) : ℚ :=
  if mx = mn then 0 else clamp ((value - mn) / (mx - mn)) 0 1

/-- JS truthiness of an optional number: `null`/`undefined`/`0` are falsy. -/
def truthyQ : Option ℚ → Bool
  | none => false
  | some v => v != 0

/-- JS truthiness of an optional boolean. -/
def truthyB : Option Bool → Bool
  | none => false
  | some b => b

/-- JS `s || d` for an optional string (empty string is falsy). -/
def strOr (o : Option String) (d : String) : String :=
  match o with
  | none => d
  | some s => if s = "" then d else s

/-- ASCII lowercasing of one character, as JS `toLowerCase` acts on the
ASCII enum keys used here. -/
def lowerChar (c : Char) : Char :=
  if 65 ≤ c.toNat ∧ c.toNat ≤ 90 then Char.ofNat (c.toNat + 32) else c

/-- JS `String.prototype.toLowerCase` on the ASCII strings used as enum
keys. -/
def strToLower (s : String) : String := String.mk (s.data.map lowerChar)

/-- JS `v || d` for a looked-up optional number: a present `0` is falsy and
still falls back to `d`. -/
def jsOrNum (v : Option ℚ) (d : ℚ) : ℚ :=
  match v with
  | none => d
  | some q => if q = 0 then d else q

/-- The specification record consumed by the scoring engine (§3 of scoring
model): every field optional. -/
structure CarSpec where
  fuelType : Option String := none
  mileage : Option ℚ := none
  range : Option ℚ := none
  batteryCapacity : Option ℚ := none
  displacement : Option ℚ := none
  cylinders : Option ℚ := none
  power : Option ℚ := none
  torque : Option ℚ := none
  gears : Option ℚ := none
  transmissionType : Option String := none
  kerbWeight : Option ℚ := none
  length : Option ℚ := none
  width : Option ℚ := none
  height : Option ℚ := none
  groundClearance : Option ℚ := none
  bodyType : Option String := none
  ncapStars : Option ℚ := none
  airbags : Option ℚ := none
  esc : Option Bool := none
  isofix : Option Bool := none
  price : Option ℚ := none
deriving DecidableEq

/-- scoring.js factor 1: displacement penalty (`if (displacement)` guard,
then three-way threshold ladder). -/
def displacementPenalty (d : Option ℚ) : ℚ :=
  if truthyQ d then
    let dv := d.getD 0
    if dv > 1500 then jsMin ((dv - 1500) / 100 * 2.5) 25
    else if dv > 1200 then (dv - 1200) / 100 * 1.5
    else if dv < 1000 then -(jsMin ((1000 - dv) / 100 * 2) 10)
    else 0
  else 0

/-- scoring.js factor 2: kerb-weight penalty. -/
def weightPenalty (w : Option ℚ) : ℚ :=
  if truthyQ w then
    let wv := w.getD 0
    if wv > 1200 then jsMin ((wv - 1200) / 100 * 4) 30
    else if wv > 1000 then (wv - 1000) / 100 * 2
    else if wv < 900 then -(jsMin ((900 - wv) / 100 * 3) 12)
    else 0
  else 0

/-- scoring.js factor 3: cylinder penalty, 3 points per cylinder above 4. -/
def cylinderPenalty (c : Option ℚ) : ℚ :=
  if truthyQ c then
    let cv := c.getD 0
    if cv > 4 then (cv - 4) * 3 else 0
  else 0

/-- scoring.js `bodyTypePenalties` lookup table. -/
def bodyTypePenaltyTable (key : String) : Option ℚ :=
  if key = "hatchback" then some 2
  else if key = "sedan" then some 5
  else if key = "crossover" then some 10
  else if key = "mpv" then some 15
  else if key = "suv" then some 20
  else if key = "coupe" then some 7
  else if key = "convertible" then some 12
  else none

/-- scoring.js factor 4: `bodyTypePenalties[(bodyType || 'sedan').toLowerCase()] || 7`. -/
def bodyTypePenalty (b : Option String) : ℚ :=
  jsOrNum (bodyTypePenaltyTable (strToLower (strOr b "sedan"))) 7

/-- scoring.js `transmissionPenalties` lookup table (note the `manual`
entry is `0`). -/
def transmissionPenaltyTable (key : String) : Option ℚ :=
  if key = "manual" then some 0
  else if key = "amt" then some 2
  else if key = "cvt" then some (-1)
  else if key = "dct" then some 3
  else if key = "automatic" then some 5
  else if key = "hybrid" then some (-3)
  else none

/-- scoring.js factor 5:
`transmissionPenalties[(transmissionType || 'manual').toLowerCase()] || 2`.
Because the `manual` entry is the falsy number `0`, the `|| 2` fallback fires
for manual as well, so manual contributes 2. -/
def transmissionPenalty (t : Option String) : ℚ :=
  jsOrNum (transmissionPenaltyTable (strToLower (strOr t "manual"))) 2

/-- scoring.js factor 6: power-to-weight penalty for overpowered cars
(`power*0.746/(kerbWeight/1000)` kW per tonne, penalty above 80). -/
def powerToWeightPenalty (power kerbWeight : Option ℚ) : ℚ :=
  if truthyQ power ∧ truthyQ kerbWeight then
    let pw := (power.getD 0 * 0.746) / (kerbWeight.getD 0 / 1000)
    if pw > 80 then jsMin ((pw - 80) / 10 * 2) 12 else 0
  else 0

/-- scoring.js factor 7: ground-clearance penalty above 180 mm. -/
def groundClearancePenalty (g : Option ℚ) : ℚ :=
  if truthyQ g then
    let gv := g.getD 0
    if gv > 180 then jsMin ((gv - 180) / 10) 8 else 0
  else 0

/-- scoring.js factor 8: gear-count bonus (`if (gears && gears >= 6)`). -/
def gearBonus (g : Option ℚ) : ℚ :=
  if truthyQ g ∧ g.getD 0 ≥ 6 then -(jsMin (g.getD 0 - 5) 3) else 0

/-- scoring.js `calculateEfficiencyPenalty`: the eight additive factors,
clamped below by 0 (`Math.max(0, totalPenalty)`). -/
def calculateEfficiencyPenalty (spec : CarSpec) : ℚ :=
  jsMax 0
    (displacementPenalty spec.displacement
      + weightPenalty spec.kerbWeight
      + cylinderPenalty spec.cylinders
      + bodyTypePenalty spec.bodyType
      + transmissionPenalty spec.transmissionType
      + powerToWeightPenalty spec.power spec.kerbWeight
      + groundClearancePenalty spec.groundClearance
      + gearBonus spec.gears)

/-- scoring.js `baseEfficiency` table of `calculateRealWorldEfficiency`. -/
def baseEfficiencyTable (key : String) : Option ℚ :=
  if key = "petrol" then some 16
  else if key = "diesel" then some 20
  else if key = "hybrid" then some 23
  else if key = "cng" then some 25
  else if key = "electric" then some 6.0
  else none

/-- `baseEfficiency[fuelType] || baseEfficiency['petrol']`. -/
def baseEfficiencyOf (ft : Option String) : ℚ :=
  jsOrNum (baseEfficiencyTable (strOr ft "")) 16

/-- scoring.js `REAL_WORLD_FACTORS` keyed lookup
(`REAL_WORLD_FACTORS[fuelType] || REAL_WORLD_FACTORS.ice`): keys are
`ice`, `hybrid`, `cng`, `ev`, so the normalized fuel types `petrol`,
`diesel` and `electric` all miss and fall back to `ice = 0.8`. -/
def realWorldFactorLookup (ft : Option String) : ℚ :=
  if strOr ft "" = "ice" then 0.8
  else if strOr ft "" = "hybrid" then 0.85
  else if strOr ft "" = "cng" then 0.8
  else if strOr ft "" = "ev" then 0.75
  else 0.8

/-- scoring.js `calculateRealWorldEfficiency`: measured mileage with fuel
correction (the `switch (fuelType)`: petrol/diesel 0.8, hybrid 0.85,
cng 0.8, default 0.8), else EV range/battery ratio, else penalty-based
estimate. -/
def calculateRealWorldEfficiency (spec : CarSpec) : ℚ :=
  if truthyQ spec.mileage then
    if spec.fuelType = some "petrol" ∨ spec.fuelType = some "diesel" then
      spec.mileage.getD 0 * 0.8
    else if spec.fuelType = some "hybrid" then spec.mileage.getD 0 * 0.85
    else if spec.fuelType = some "cng" then spec.mileage.getD 0 * 0.8
    else spec.mileage.getD 0 * 0.8
  else if spec.fuelType = some "electric" ∧ truthyQ spec.range
      ∧ truthyQ spec.batteryCapacity then
    (spec.range.getD 0 * 0.75) / spec.batteryCapacity.getD 0
  else
    let efficiencyPenalty := calculateEfficiencyPenalty spec
    let baseFuelEfficiency := baseEfficiencyOf spec.fuelType
    let penaltyFactor := jsMax 0.4 (1 - efficiencyPenalty * 0.015)
    let estimatedEfficiency := baseFuelEfficiency * penaltyFactor
    estimatedEfficiency * realWorldFactorLookup spec.fuelType

/-- The fuel prices record consumed by `calculateCostPerKm`. -/
structure FuelPrices where
  petrol : ℚ
  diesel : ℚ
  cng : ℚ
  electricity : ℚ
deriving DecidableEq

/-- The fuel-type dispatch of `calculateCostPerKm` (the `switch` statement):
hybrid uses the petrol price ("Assuming petrol hybrid"), unrecognized fuel
types yield `null`. -/
def costPerKmByFuel (spec : CarSpec) (fuelPrices : FuelPrices) (eff : ℚ) : Option ℚ :=
  if spec.fuelType = some "petrol" then some (fuelPrices.petrol / eff)
  else if spec.fuelType = some "diesel" then some (fuelPrices.diesel / eff)
  else if spec.fuelType = some "cng" then some (fuelPrices.cng / eff)
  else if spec.fuelType = some "hybrid" then some (fuelPrices.petrol / eff)
  else if spec.fuelType = some "electric" then some (fuelPrices.electricity / eff)
  else none

/-- scoring.js `calculateCostPerKm`: `null` when the real-world efficiency
is falsy (`!realWorldEff`), else the fuel-type dispatch. -/
def calculateCostPerKm (spec : CarSpec) (fuelPrices : FuelPrices) : Option ℚ :=
  if calculateRealWorldEfficiency spec = 0 then none
  else costPerKmByFuel spec fuelPrices (calculateRealWorldEfficiency spec)

/-- The four fuel-type benchmark thresholds of `calculateEfficiencyScore`. -/
structure Thresholds where
  excellent : ℚ
  good : ℚ
  average : ℚ
  poor : ℚ
deriving DecidableEq

/-- The `switch (fuelType)` threshold selection of `calculateEfficiencyScore`
(default case = petrol thresholds). -/
def thresholdsOf (ft : Option String) : Thresholds :=
  if ft = some "petrol" then ⟨20, 17, 14, 11⟩
  else if ft = some "diesel" then ⟨25, 22, 19, 16⟩
  else if ft = some "hybrid" then ⟨28, 24, 20, 17⟩
  else if ft = some "cng" then ⟨30, 26, 22, 18⟩
  else if ft = some "electric" then ⟨8.0, 6.5, 5.0, 3.5⟩
  else ⟨20, 17, 14, 11⟩

/-- The piecewise-linear benchmark score of `calculateEfficiencyScore`
(the five-band `if/else` ladder on `realWorldEff`). -/
def benchmarkScore (eff : ℚ) (t : Thresholds) : ℚ :=
  if eff ≥ t.excellent then
    0.75 + jsMin ((eff - t.excellent) / (t.excellent * 0.3)) 1.0 * 0.15
  else if eff ≥ t.good then
    0.55 + (eff - t.good) / (t.excellent - t.good) * 0.20
  else if eff ≥ t.average then
    0.35 + (eff - t.average) / (t.good - t.average) * 0.20
  else if eff ≥ t.poor then
    0.20 + (eff - t.poor) / (t.average - t.poor) * 0.15
  else
    jsMax 0.05 (0.20 * (eff / t.poor))

/-- The no-efficiency-data fallback branch of `calculateEfficiencyScore`:
0.60 baseline minus a capped penalty reduction, floored at 0.15. -/
def effScoreFallback (spec : CarSpec) : ℚ :=
  jsMax 0.15 (0.60 - jsMin (calculateEfficiencyPenalty spec * 0.02) 0.45)

/-- The main branch of `calculateEfficiencyScore`: benchmark score, then the
penalty-based adjustment, then the `[0.05, 1.0]` clamps (in source order:
`max(0.05, score - adj)` then `min(1.0, score)`). -/
def effScoreFromBenchmarks (spec : CarSpec) (eff : ℚ) : ℚ :=
  jsMin 1
    (jsMax 0.05
      (benchmarkScore eff (thresholdsOf spec.fuelType)
        - jsMin (calculateEfficiencyPenalty spec * 0.012) 0.25))

/-- scoring.js `calculateEfficiencyScore` (0-1): fallback when the
real-world efficiency is falsy (`!realWorldEff`), else benchmark-based. -/
def calculateEfficiencyScore (spec : CarSpec) : ℚ :=
  if calculateRealWorldEfficiency spec = 0 then effScoreFallback spec
  else effScoreFromBenchmarks spec (calculateRealWorldEfficiency spec)

/-- The additive feature-derived safety sum of `calculateSafetyScore`:
6+ airbags +0.4 (2-5 airbags +0.2), ESC +0.2, ISOFIX +0.2. -/
def safetyFeatureSum (spec : CarSpec) : ℚ :=
  (if truthyQ spec.airbags ∧ spec.airbags.getD 0 ≥ 6 then 0.4
   else if truthyQ spec.airbags ∧ spec.airbags.getD 0 ≥ 2 then 0.2
   else 0)
  + (if truthyB spec.esc then 0.2 else 0)
  + (if truthyB spec.isofix then 0.2 else 0)

/-- scoring.js `calculateSafetyScore` (0-1): NCAP stars when present and
positive, else the feature-derived additive score capped at 0.6. -/
def calculateSafetyScore (spec : CarSpec) : ℚ :=
  if truthyQ spec.ncapStars ∧ spec.ncapStars.getD 0 > 0 then
    jsMin (spec.ncapStars.getD 0 / 5) 1
  else jsMin (safetyFeatureSum spec) 0.6

/-- scoring.js `calculateValueScore` (0-1): requires a truthy price, else 0;
`featuresScore*0.6 + priceScore*0.4` with `featuresScore` the mean of the
efficiency and safety scores and `priceScore = 1 - normalize(price, 6, 50)`. -/
def calculateValueScore (spec : CarSpec) (efficiencyScore safetyScore : ℚ) : ℚ :=
  if truthyQ spec.price then
    ((efficiencyScore + safetyScore) / 2) * 0.6
      + (1 - normalize (spec.price.getD 0) 6 50) * 0.4
  else 0

/-- scoring.js `calculatePerformancePerEfficiencyScore` (0-1): falls back to
the efficiency score when power or kerb weight is falsy, else
`powerScore*0.7 + efficiencyScore*0.3` with the power-to-weight ratio
normalized against `[50, 120]`. -/
def calculatePerformancePerEfficiencyScore (spec : CarSpec) (efficiencyScore : ℚ) : ℚ :=
  if truthyQ spec.power ∧ truthyQ spec.kerbWeight then
    normalize (spec.power.getD 0 / (spec.kerbWeight.getD 0 / 1000)) 50 120 * 0.7
      + efficiencyScore * 0.3
  else efficiencyScore

/-- The weight configuration consumed by `calculateCompositeScore`. -/
structure Weights where
  efficiency : ℚ
  safety : ℚ
  valueForMoney : ℚ
  performancePerEfficiency : ℚ
deriving DecidableEq

/-- The `breakdown` part of the score result (integer percentages). -/
structure Breakdown where
  efficiency : ℤ
  safety : ℤ
  valueForMoney : ℤ
  performancePerEfficiency : ℤ
deriving DecidableEq

/-- The `metrics` part of the score result. -/
structure Metrics where
  costPerKm : Option ℚ
  powerToWeight : Option ℚ
  realWorldEfficiency : ℚ
deriving DecidableEq

/-- The object returned by `calculateCompositeScore`. -/
structure ScoreResult where
  composite : ℤ
  breakdown : Breakdown
  metrics : Metrics
deriving DecidableEq

/-- scoring.js `calculateCompositeScore`: the four sub-scores, the weighted
composite `(Σ subscore×weight)/100`, and the display metrics.  The
`costPerKm ? ... : null` and `powerToWeight ? ... : null` guards treat a
zero value as falsy. -/
def calculateCompositeScore (spec : CarSpec) (weights : Weights)
    (fuelPrices : FuelPrices) : ScoreResult :=
  let efficiencyScore := calculateEfficiencyScore spec
  let safetyScore := calculateSafetyScore spec
  let valueScore := calculateValueScore spec efficiencyScore safetyScore
  let perfEffScore := calculatePerformancePerEfficiencyScore spec efficiencyScore
  let composite :=
    (efficiencyScore * weights.efficiency
      + safetyScore * weights.safety
      + valueScore * weights.valueForMoney
      + perfEffScore * weights.performancePerEfficiency) / 100
  let costPerKm := calculateCostPerKm spec fuelPrices
  let powerToWeight : Option ℚ :=
    if truthyQ spec.power ∧ truthyQ spec.kerbWeight then
      some (spec.power.getD 0 / (spec.kerbWeight.getD 0 / 1000))
    else none
  { composite := mathRound (composite * 100)
    breakdown :=
      { efficiency := mathRound (efficiencyScore * 100)
        safety := mathRound (safetyScore * 100)
        valueForMoney := mathRound (valueScore * 100)
        performancePerEfficiency := mathRound (perfEffScore * 100) }
    metrics :=
      { costPerKm :=
          match costPerKm with
          | some c => if c = 0 then none else some ((mathRound (c * 100) : ℚ) / 100)
          | none => none
        powerToWeight :=
          match powerToWeight with
          | some pw => if pw = 0 then none else some ((mathRound (pw * 10) : ℚ) / 10)
          | none => none
        realWorldEfficiency := calculateRealWorldEfficiency spec } }

/-- utils.js `getDefaultSettings().weights`. -/
def defaultWeights : Weights :=
  { efficiency := 35, safety := 30, valueForMoney := 25, performancePerEfficiency := 10 }

/-- utils.js `getDefaultSettings().fuelPrices`. -/
def defaultFuelPrices : FuelPrices :=
  { petrol := 110, diesel := 95, cng := 80, electricity := 9 }

/-- The record with every optional field absent. -/
def emptySpec : CarSpec := {}

/-- A JavaScript value as it may sit in a raw attribute bag before
validation: a number (finite, modelled exactly), a string, a boolean,
`null` or `undefined`. -/
inductive JSVal where
  | null : JSVal
  | undef : JSVal
  | num : ℚ → JSVal
  | str : String → JSVal
  | bool : Bool → JSVal
deriving DecidableEq

/-- JS truthiness of a raw value. -/
def jsTruthy : JSVal → Bool
  | JSVal.null => false
  | JSVal.undef => false
  | JSVal.num q => q != 0
  | JSVal.str s => s != ""
  | JSVal.bool b => b

/-- utils.js `parseNumber` step 1: `.replace(/[^\d.-]/g, '').replace(/,/g, '')`
keeps only digits, decimal points and minus signs. -/
def stripNonNumeric (s : String) : String :=
  String.mk (s.data.filter (fun c => c.isDigit || c == '.' || c == '-'))

/-- Value of a digit string, most significant first. -/
def digitsToNat (ds : List Char) : ℕ :=
  ds.foldl (fun a c => a * 10 + (c.toNat - 48)) 0

/-- JS `parseFloat` on a string containing only digits, `.` and `-` (the
output of `stripNonNumeric`): an optional leading minus sign, then the
longest prefix of digits, then optionally a point and more digits; `NaN`
(here `none`) when no digit was consumed. -/
def jsParseFloat (s : String) : Option ℚ :=
  let cs := s.data
  let signNeg : Bool := cs.head? == some '-'
  let cs1 := if signNeg then cs.tail else cs
  let ip := cs1.takeWhile Char.isDigit
  let rest := cs1.dropWhile Char.isDigit
  let fp : List Char :=
    match rest with
    | '.' :: r => r.takeWhile Char.isDigit
    | _ => []
  if ip.isEmpty ∧ fp.isEmpty then none
  else
    let mag : ℚ := (digitsToNat ip : ℚ) + (digitsToNat fp : ℚ) / (10 : ℚ) ^ fp.length
    some (if signNeg then -mag else mag)

/-- utils.js `parseNumber(text)`: `null` for falsy input (note `0` is falsy,
so a numeric `0` also yields `null`), else `toString`, strip, `parseFloat`,
and `null` for `NaN`.  A nonzero number round-trips through its decimal
`toString`; `true.toString()` strips to the empty string, hence `NaN`. -/
def parseNumber : JSVal → Option ℚ
  | JSVal.null => none
  | JSVal.undef => none
  | JSVal.bool _ => none
  | JSVal.num q => if q = 0 then none else some q
  | JSVal.str s => if s = "" then none else jsParseFloat (stripNonNumeric s)

/-- A raw attribute bag as handed to `validateSpec`: numeric and boolean
fields are arbitrary JS values, the enum-ish string fields carry strings. -/
structure RawSpec where
  fuelType : Option String := none
  transmissionType : Option String := none
  bodyType : Option String := none
  mileage : JSVal := JSVal.undef
  range : JSVal := JSVal.undef
  batteryCapacity : JSVal := JSVal.undef
  displacement : JSVal := JSVal.undef
  cylinders : JSVal := JSVal.undef
  power : JSVal := JSVal.undef
  torque : JSVal := JSVal.undef
  gears : JSVal := JSVal.undef
  kerbWeight : JSVal := JSVal.undef
  length : JSVal := JSVal.undef
  width : JSVal := JSVal.undef
  height : JSVal := JSVal.undef
  groundClearance : JSVal := JSVal.undef
  ncapStars : JSVal := JSVal.undef
  airbags : JSVal := JSVal.undef
  price : JSVal := JSVal.undef
  esc : JSVal := JSVal.undef
  isofix : JSVal := JSVal.undef
deriving DecidableEq

/-- The per-field numeric coercion of `validateSpec`: nullish fields are
left alone, any other value is replaced by `parseNumber`'s result
(a number, or `null` when parsing failed). -/
def coerceNum (v : JSVal) : JSVal :=
  if v = JSVal.null ∨ v = JSVal.undef then v
  else
    match parseNumber v with
    | some q => JSVal.num q
    | none => JSVal.null

/-- The per-field boolean coercion of `validateSpec`: nullish fields are
left alone, any other value is replaced by `Boolean(value)`. -/
def coerceBool (v : JSVal) : JSVal :=
  if v = JSVal.null ∨ v = JSVal.undef then v
  else JSVal.bool (jsTruthy v)

/-- scoring.js `validateSpec`: coerces the eight listed numeric fields
(`mileage`, `range`, `batteryCapacity`, `power`, `kerbWeight`, `price`,
`ncapStars`, `airbags`) and the two boolean fields (`esc`, `isofix`),
lowercases a truthy `fuelType`, and passes every other field through
unchanged. -/
def validateSpec (rawSpec : RawSpec) : RawSpec :=
  { rawSpec with
    mileage := coerceNum rawSpec.mileage
    range := coerceNum rawSpec.range
    batteryCapacity := coerceNum rawSpec.batteryCapacity
    power := coerceNum rawSpec.power
    kerbWeight := coerceNum rawSpec.kerbWeight
    price := coerceNum rawSpec.price
    ncapStars := coerceNum rawSpec.ncapStars
    airbags := coerceNum rawSpec.airbags
    esc := coerceBool rawSpec.esc
    isofix := coerceBool rawSpec.isofix
    fuelType :=
      match rawSpec.fuelType with
      | some s => if s = "" then some s else some (strToLower s)
      | none => none }

/-- A value that is a finite number or absent (never `NaN`, never a
leftover non-numeric value). -/
def numOrAbsent (v : JSVal) : Prop :=
  (∃ q : ℚ, v = JSVal.num q) ∨ v = JSVal.null ∨ v = JSVal.undef

/-- A value that is a finite non-negative number or absent. -/
def nonnegNumOrAbsent (v : JSVal) : Prop :=
  (∃ q : ℚ, 0 ≤ q ∧ v = JSVal.num q) ∨ v = JSVal.null ∨ v = JSVal.undef

/-- The invariant claimed for `validateSpec`'s output, stated over the
sixteen numeric fields named by the specification: each is a finite
non-negative number or absent. -/
def allNumericFieldsNonnegOrAbsent (r : RawSpec) : Prop :=
  nonnegNumOrAbsent r.mileage ∧ nonnegNumOrAbsent r.range
    ∧ nonnegNumOrAbsent r.batteryCapacity ∧ nonnegNumOrAbsent r.displacement
    ∧ nonnegNumOrAbsent r.cylinders ∧ nonnegNumOrAbsent r.power
    ∧ nonnegNumOrAbsent r.torque ∧ nonnegNumOrAbsent r.gears
    ∧ nonnegNumOrAbsent r.kerbWeight ∧ nonnegNumOrAbsent r.length
    ∧ nonnegNumOrAbsent r.width ∧ nonnegNumOrAbsent r.height
    ∧ nonnegNumOrAbsent r.groundClearance ∧ nonnegNumOrAbsent r.ncapStars
    ∧ nonnegNumOrAbsent r.airbags ∧ nonnegNumOrAbsent r.price

/-- The electric record of the specification's worked example:
range 300 km, battery 40 kWh. -/
def evSpec : CarSpec :=
  { fuelType := some "electric", range := some 300, batteryCapacity := some 40 }

/-- A record with 0 NCAP stars but a full feature set (6 airbags and ESC):
its feature-derived safety score is 0.6. -/
def zeroStarFeatureSpec : CarSpec :=
  { ncapStars := some 0, airbags := some 6, esc := some true }

/-- The worked-example record of the specification scenario: petrol, no
measured mileage, 1197 cc, 950 kg, 4 cylinders, manual, hatchback,
5 gears. -/
def c8spec : CarSpec :=
  { fuelType := some "petrol", mileage := none, displacement := some 1197,
    kerbWeight := some 950, cylinders := some 4, transmissionType := some "manual",
    bodyType := some "hatchback", gears := some 5 }

/-- The hybrid record with measured mileage 20 used against the
cost-per-km claim. -/
def hybridSpec : CarSpec := { fuelType := some "hybrid", mileage := some 20 }

/-- A numeric field that is absent or carries a non-negative value. -/
def optNonneg (o : Option ℚ) : Prop := ∀ q, o = some q → 0 ≤ q

/-- A record whose numeric fields are each absent or non-negative. -/
def NonnegSpec (spec : CarSpec) : Prop :=
  optNonneg spec.mileage ∧ optNonneg spec.range ∧ optNonneg spec.batteryCapacity
    ∧ optNonneg spec.displacement ∧ optNonneg spec.cylinders ∧ optNonneg spec.power
    ∧ optNonneg spec.torque ∧ optNonneg spec.gears ∧ optNonneg spec.kerbWeight
    ∧ optNonneg spec.length ∧ optNonneg spec.width ∧ optNonneg spec.height
    ∧ optNonneg spec.groundClearance ∧ optNonneg spec.ncapStars ∧ optNonneg spec.airbags
    ∧ optNonneg spec.price

/-- A raw attribute bag carrying a negative numeric string and a
non-numeric string. -/
def rawBad : RawSpec := { mileage := JSVal.str "-5", displacement := JSVal.str "abc" }

theorem strToLower_sedan : strToLower "sedan" = "sedan" := by decide

theorem strToLower_manual : strToLower "manual" = "manual" := by decide

theorem strToLower_hatchback : strToLower "hatchback" = "hatchback" := by decide

theorem jsMin_eq_min (a b : ℚ) : jsMin a b = min a b := by
  simp [jsMin, min_def]

theorem jsMax_eq_max (a b : ℚ) : jsMax a b = max a b := by
  simp [jsMax, max_def]

theorem truthyQ_getD_ne_zero {o : Option ℚ} (h : truthyQ o = true) : o.getD 0 ≠ 0 := by
  cases o with
  | none => simp [truthyQ] at h
  | some v => simpa [truthyQ] using h

theorem penalty_nonneg (spec : CarSpec) : 0 ≤ calculateEfficiencyPenalty spec := by
  unfold calculateEfficiencyPenalty
  rw [jsMax_eq_max]
  exact le_max_left 0 _

theorem normalize_nonneg (v a b : ℚ) : 0 ≤ normalize v a b := by
  unfold normalize clamp
  split
  · norm_num
  · rw [jsMin_eq_min, jsMax_eq_max]
    exact le_min (le_max_right _ _) zero_le_one

theorem normalize_le_one (v a b : ℚ) : normalize v a b ≤ 1 := by
  unfold normalize clamp
  split
  · norm_num
  · rw [jsMin_eq_min]
    exact min_le_right _ _

theorem effScoreFallback_bounds (spec : CarSpec) :
    0.15 ≤ effScoreFallback spec ∧ effScoreFallback spec ≤ 0.6 := by
  unfold effScoreFallback
  rw [jsMax_eq_max, jsMin_eq_min]
  constructor
  · exact le_max_left _ _
  · have h0 : (0:ℚ) ≤ min (calculateEfficiencyPenalty spec * 0.02) 0.45 :=
      le_min (mul_nonneg (penalty_nonneg spec) (by norm_num)) (by norm_num)
    exact max_le (by norm_num) (by linarith)

theorem effScoreFromBenchmarks_bounds (spec : CarSpec) (eff : ℚ) :
    0.05 ≤ effScoreFromBenchmarks spec eff ∧ effScoreFromBenchmarks spec eff ≤ 1 := by
  unfold effScoreFromBenchmarks
  rw [jsMin_eq_min, jsMax_eq_max]
  exact ⟨le_min (by norm_num) (le_max_left _ _), min_le_left _ _⟩

theorem efficiencyScore_bounds (spec : CarSpec) :
    0 ≤ calculateEfficiencyScore spec ∧ calculateEfficiencyScore spec ≤ 1 := by
  unfold calculateEfficiencyScore
  split
  · have h := effScoreFallback_bounds spec
    exact ⟨by linarith [h.1], by linarith [h.2]⟩
  · have h := effScoreFromBenchmarks_bounds spec (calculateRealWorldEfficiency spec)
    exact ⟨by linarith [h.1], h.2⟩

theorem safetyFeatureSum_nonneg (spec : CarSpec) : 0 ≤ safetyFeatureSum spec := by
  unfold safetyFeatureSum
  split_ifs <;> norm_num

theorem safetyScore_bounds (spec : CarSpec) :
    0 ≤ calculateSafetyScore spec ∧ calculateSafetyScore spec ≤ 1 := by
  unfold calculateSafetyScore
  split
  · next h =>
    have hpos : 0 < Option.getD spec.ncapStars 0 := h.2
    rw [jsMin_eq_min]
    exact ⟨le_min (by positivity) zero_le_one, min_le_right _ _⟩
  · rw [jsMin_eq_min]
    exact ⟨le_min (safetyFeatureSum_nonneg spec) (by norm_num),
      le_trans (min_le_right _ _) (by norm_num)⟩

theorem valueScore_bounds (spec : CarSpec) {e s : ℚ}
    (he0 : 0 ≤ e) (he1 : e ≤ 1) (hs0 : 0 ≤ s) (hs1 : s ≤ 1) :
    0 ≤ calculateValueScore spec e s ∧ calculateValueScore spec e s ≤ 1 := by
  unfold calculateValueScore
  split
  · have hp0 := normalize_nonneg (Option.getD spec.price 0) 6 50
    have hp1 := normalize_le_one (Option.getD spec.price 0) 6 50
    constructor <;> nlinarith
  · norm_num

theorem perfEffScore_bounds (spec : CarSpec) {e : ℚ} (he0 : 0 ≤ e) (he1 : e ≤ 1) :
    0 ≤ calculatePerformancePerEfficiencyScore spec e
      ∧ calculatePerformancePerEfficiencyScore spec e ≤ 1 := by
  unfold calculatePerformancePerEfficiencyScore
  split
  · have hp0 := normalize_nonneg
      (Option.getD spec.power 0 / (Option.getD spec.kerbWeight 0 / 1000)) 50 120
    have hp1 := normalize_le_one
      (Option.getD spec.power 0 / (Option.getD spec.kerbWeight 0 / 1000)) 50 120
    constructor <;> nlinarith
  · exact ⟨he0, he1⟩

theorem mathRound_nonneg {x : ℚ} (h : 0 ≤ x) : 0 ≤ mathRound x :=
  Int.le_floor.mpr (by push_cast; linarith)

theorem mathRound_le_hundred {x : ℚ} (h : x ≤ 100) : mathRound x ≤ 100 := by
  have h2 : mathRound x < 101 := Int.floor_lt.mpr (by push_cast; linarith)
  omega

theorem compositeScore_eq (spec : CarSpec) (w : Weights) (fp : FuelPrices) :
    (calculateCompositeScore spec w fp).composite
      = mathRound (calculateEfficiencyScore spec * w.efficiency
          + calculateSafetyScore spec * w.safety
          + calculateValueScore spec (calculateEfficiencyScore spec)
              (calculateSafetyScore spec) * w.valueForMoney
          + calculatePerformancePerEfficiencyScore spec
              (calculateEfficiencyScore spec) * w.performancePerEfficiency) := by
  have h : (calculateCompositeScore spec w fp).composite
      = mathRound ((calculateEfficiencyScore spec * w.efficiency
          + calculateSafetyScore spec * w.safety
          + calculateValueScore spec (calculateEfficiencyScore spec)
              (calculateSafetyScore spec) * w.valueForMoney
          + calculatePerformancePerEfficiencyScore spec
              (calculateEfficiencyScore spec) * w.performancePerEfficiency) / 100 * 100) := rfl
  rw [h, div_mul_cancel₀ _ (by norm_num : (100:ℚ) ≠ 0)]

theorem composite_in_range (spec : CarSpec) (w : Weights) (fp : FuelPrices)
    (hw1 : 0 ≤ w.efficiency) (hw2 : 0 ≤ w.safety) (hw3 : 0 ≤ w.valueForMoney)
    (hw4 : 0 ≤ w.performancePerEfficiency)
    (hsum : w.efficiency + w.safety + w.valueForMoney + w.performancePerEfficiency = 100) :
    0 ≤ (calculateCompositeScore spec w fp).composite
      ∧ (calculateCompositeScore spec w fp).composite ≤ 100 := by
  obtain ⟨he0, he1⟩ := efficiencyScore_bounds spec
  obtain ⟨hs0, hs1⟩ := safetyScore_bounds spec
  obtain ⟨hv0, hv1⟩ := valueScore_bounds spec he0 he1 hs0 hs1
  obtain ⟨hp0, hp1⟩ := perfEffScore_bounds spec he0 he1
  rw [compositeScore_eq]
  constructor
  · refine mathRound_nonneg ?_
    have t1 := mul_nonneg he0 hw1
    have t2 := mul_nonneg hs0 hw2
    have t3 := mul_nonneg hv0 hw3
    have t4 := mul_nonneg hp0 hw4
    linarith
  · refine mathRound_le_hundred ?_
    have t1 := mul_le_of_le_one_left hw1 he1
    have t2 := mul_le_of_le_one_left hw2 hs1
    have t3 := mul_le_of_le_one_left hw3 hv1
    have t4 := mul_le_of_le_one_left hw4 hp1
    linarith

theorem penalty_empty : calculateEfficiencyPenalty emptySpec = 7 := by
  norm_num [calculateEfficiencyPenalty, displacementPenalty, weightPenalty, cylinderPenalty,
    bodyTypePenalty, transmissionPenalty, powerToWeightPenalty, groundClearancePenalty,
    gearBonus, bodyTypePenaltyTable, transmissionPenaltyTable, strOr, strToLower_sedan,
    strToLower_manual, jsOrNum, truthyQ, emptySpec, jsMin, jsMax,
    (by decide : ("sedan" : String) ≠ "hatchback"),
    (by decide : ("manual" : String) ≠ "amt"),
    (by decide : ("manual" : String) ≠ "cvt"),
    (by decide : ("manual" : String) ≠ "dct"),
    (by decide : ("manual" : String) ≠ "automatic"),
    (by decide : ("manual" : String) ≠ "hybrid")]

theorem realWorldEfficiency_empty : calculateRealWorldEfficiency emptySpec = 1432/125 := by
  unfold calculateRealWorldEfficiency
  rw [if_neg (by simp [truthyQ, (show emptySpec.mileage = none from rfl)]),
    if_neg (fun h => Option.noConfusion h.1)]
  rw [penalty_empty, (show baseEfficiencyOf emptySpec.fuelType = 16 from rfl),
    (show realWorldFactorLookup emptySpec.fuelType = 0.8 from rfl)]
  norm_num [jsMax]

theorem efficiencyScore_empty : calculateEfficiencyScore emptySpec = 347/2500 := by
  unfold calculateEfficiencyScore
  rw [realWorldEfficiency_empty, if_neg (by norm_num)]
  unfold effScoreFromBenchmarks benchmarkScore
  rw [(show thresholdsOf emptySpec.fuelType = ⟨20, 17, 14, 11⟩ from rfl), penalty_empty]
  norm_num [jsMin, jsMax]

theorem safetyScore_empty : calculateSafetyScore emptySpec = 0 := by
  norm_num [calculateSafetyScore, safetyFeatureSum, truthyQ, truthyB,
    (show emptySpec.ncapStars = none from rfl), (show emptySpec.airbags = none from rfl),
    (show emptySpec.esc = none from rfl), (show emptySpec.isofix = none from rfl), jsMin]

theorem composite_empty :
    (calculateCompositeScore emptySpec defaultWeights defaultFuelPrices).composite = 6 := by
  rw [compositeScore_eq, efficiencyScore_empty, safetyScore_empty]
  norm_num [calculateValueScore, calculatePerformancePerEfficiencyScore, truthyQ,
    (show emptySpec.price = none from rfl), (show emptySpec.power = none from rfl),
    (show emptySpec.kerbWeight = none from rfl), defaultWeights,
    efficiencyScore_empty, safetyScore_empty, mathRound]

theorem penalty_c8 : calculateEfficiencyPenalty c8spec = 4 := by
  norm_num [calculateEfficiencyPenalty, displacementPenalty, weightPenalty,
    cylinderPenalty, powerToWeightPenalty, groundClearancePenalty, gearBonus, truthyQ,
    (show c8spec.displacement = some 1197 from rfl),
    (show c8spec.kerbWeight = some 950 from rfl),
    (show c8spec.cylinders = some 4 from rfl),
    (show c8spec.power = none from rfl),
    (show c8spec.groundClearance = none from rfl),
    (show c8spec.gears = some 5 from rfl),
    (show bodyTypePenalty c8spec.bodyType = 2 from rfl),
    (show transmissionPenalty c8spec.transmissionType = 2 from rfl), jsMin, jsMax]

theorem realWorldEfficiency_c8 : calculateRealWorldEfficiency c8spec = 12.032 := by
  unfold calculateRealWorldEfficiency
  rw [if_neg (by simp [truthyQ, (show c8spec.mileage = none from rfl)]),
    if_neg (fun h => absurd h.1 (by decide))]
  rw [penalty_c8, (show baseEfficiencyOf c8spec.fuelType = 16 from rfl),
    (show realWorldFactorLookup c8spec.fuelType = 0.8 from rfl)]
  norm_num [jsMax]

theorem baseEfficiencyTable_pos (s : String) (q : ℚ) (h : baseEfficiencyTable s = some q) :
    0 < q := by
  unfold baseEfficiencyTable at h
  split_ifs at h <;> cases h <;> norm_num

theorem jsOrNum_pos (v : Option ℚ) (d : ℚ) (hv : ∀ q, v = some q → 0 < q) (hd : 0 < d) :
    0 < jsOrNum v d := by
  cases v with
  | none => exact hd
  | some q =>
    show 0 < (if q = 0 then d else q)
    split_ifs
    · exact hd
    · exact hv q rfl

theorem baseEfficiencyOf_pos (ft : Option String) : 0 < baseEfficiencyOf ft :=
  jsOrNum_pos _ _ (fun q h => baseEfficiencyTable_pos _ q h) (by norm_num)

theorem realWorldFactorLookup_pos (ft : Option String) : 0 < realWorldFactorLookup ft := by
  unfold realWorldFactorLookup
  split_ifs <;> norm_num

theorem penaltyFactor_pos (spec : CarSpec) :
    0 < jsMax 0.4 (1 - calculateEfficiencyPenalty spec * 0.015) := by
  rw [jsMax_eq_max]
  exact lt_of_lt_of_le (by norm_num) (le_max_left _ _)

theorem realWorldEfficiency_ne_zero (spec : CarSpec) :
    calculateRealWorldEfficiency spec ≠ 0 := by
  unfold calculateRealWorldEfficiency
  split
  · next hm =>
    have hm0 : spec.mileage.getD 0 ≠ 0 := truthyQ_getD_ne_zero hm
    split_ifs <;> exact mul_ne_zero hm0 (by norm_num)
  · split
    · next hc =>
      have hr0 : spec.range.getD 0 ≠ 0 := truthyQ_getD_ne_zero hc.2.1
      have hb0 : spec.batteryCapacity.getD 0 ≠ 0 := truthyQ_getD_ne_zero hc.2.2
      exact div_ne_zero (mul_ne_zero hr0 (by norm_num)) hb0
    · exact ne_of_gt (mul_pos (mul_pos (baseEfficiencyOf_pos spec.fuelType)
        (penaltyFactor_pos spec)) (realWorldFactorLookup_pos spec.fuelType))

theorem realWorldEfficiency_hybridSpec : calculateRealWorldEfficiency hybridSpec = 17 := by
  unfold calculateRealWorldEfficiency
  rw [if_pos (by norm_num [truthyQ, (show hybridSpec.mileage = some 20 from rfl)]),
    if_neg (fun h => by rcases h with h | h <;> exact absurd h (by decide)),
    if_pos (show hybridSpec.fuelType = some "hybrid" from rfl)]
  norm_num [(show hybridSpec.mileage = some 20 from rfl)]

/-- C1: for every weight configuration of four non-negative weights summing
to 100 and every record (whose computed sub-scores always lie in [0,1]),
`calculateCompositeScore` returns a composite integer in [0,100] equal to
`Math.round` of the weighted sum of the four sub-scores, and the four
breakdown entries equal `Math.round(subscore * 100)`. -/
theorem composite_rounded_weighted_sum (spec : CarSpec) (w : Weights) (fp : FuelPrices)
    (hw1 : 0 ≤ w.efficiency) (hw2 : 0 ≤ w.safety) (hw3 : 0 ≤ w.valueForMoney)
    (hw4 : 0 ≤ w.performancePerEfficiency)
    (hsum : w.efficiency + w.safety + w.valueForMoney + w.performancePerEfficiency = 100) :
    (calculateCompositeScore spec w fp).composite
      = mathRound (calculateEfficiencyScore spec * w.efficiency
          + calculateSafetyScore spec * w.safety
          + calculateValueScore spec (calculateEfficiencyScore spec)
              (calculateSafetyScore spec) * w.valueForMoney
          + calculatePerformancePerEfficiencyScore spec
              (calculateEfficiencyScore spec) * w.performancePerEfficiency)
    ∧ 0 ≤ (calculateCompositeScore spec w fp).composite
    ∧ (calculateCompositeScore spec w fp).composite ≤ 100
    ∧ (calculateCompositeScore spec w fp).breakdown.efficiency
        = mathRound (calculateEfficiencyScore spec * 100)
    ∧ (calculateCompositeScore spec w fp).breakdown.safety
        = mathRound (calculateSafetyScore spec * 100)
    ∧ (calculateCompositeScore spec w fp).breakdown.valueForMoney
        = mathRound (calculateValueScore spec (calculateEfficiencyScore spec)
            (calculateSafetyScore spec) * 100)
    ∧ (calculateCompositeScore spec w fp).breakdown.performancePerEfficiency
        = mathRound (calculatePerformancePerEfficiencyScore spec
            (calculateEfficiencyScore spec) * 100) := by
  obtain ⟨hlo, hhi⟩ := composite_in_range spec w fp hw1 hw2 hw3 hw4 hsum
  exact ⟨compositeScore_eq spec w fp, hlo, hhi, rfl, rfl, rfl, rfl⟩

/-- C1 witness: the theorem applied to the all-absent record with the
default weight configuration 35/30/25/10. -/
theorem composite_rounded_weighted_sum_witness :
    ((0:ℚ) ≤ defaultWeights.efficiency ∧ (0:ℚ) ≤ defaultWeights.safety
      ∧ (0:ℚ) ≤ defaultWeights.valueForMoney
      ∧ (0:ℚ) ≤ defaultWeights.performancePerEfficiency
      ∧ defaultWeights.efficiency + defaultWeights.safety + defaultWeights.valueForMoney
          + defaultWeights.performancePerEfficiency = 100)
    ∧ 0 ≤ (calculateCompositeScore emptySpec defaultWeights defaultFuelPrices).composite
    ∧ (calculateCompositeScore emptySpec defaultWeights defaultFuelPrices).composite ≤ 100 :=
  ⟨⟨by norm_num [defaultWeights], by norm_num [defaultWeights], by norm_num [defaultWeights],
    by norm_num [defaultWeights], by norm_num [defaultWeights]⟩,
   (composite_rounded_weighted_sum emptySpec defaultWeights defaultFuelPrices
      (by norm_num [defaultWeights]) (by norm_num [defaultWeights])
      (by norm_num [defaultWeights]) (by norm_num [defaultWeights])
      (by norm_num [defaultWeights])).2.1,
   (composite_rounded_weighted_sum emptySpec defaultWeights defaultFuelPrices
      (by norm_num [defaultWeights]) (by norm_num [defaultWeights])
      (by norm_num [defaultWeights]) (by norm_num [defaultWeights])
      (by norm_num [defaultWeights])).2.2.1⟩

/-- C2: the scoring engine is total: every record (in particular the one
with every optional field absent) yields a result object whose composite,
under the default weight configuration, lies in [0,100]; at the all-absent
record the composite is 6. -/
theorem empty_record_still_scores :
    (∀ spec : CarSpec,
      0 ≤ (calculateCompositeScore spec defaultWeights defaultFuelPrices).composite
      ∧ (calculateCompositeScore spec defaultWeights defaultFuelPrices).composite ≤ 100)
    ∧ (calculateCompositeScore emptySpec defaultWeights defaultFuelPrices).composite = 6 :=
  ⟨fun spec => composite_in_range spec defaultWeights defaultFuelPrices
      (by norm_num [defaultWeights]) (by norm_num [defaultWeights])
      (by norm_num [defaultWeights]) (by norm_num [defaultWeights])
      (by norm_num [defaultWeights]),
   composite_empty⟩

/-- C5: for every record, `calculateEfficiencyPenalty` returns a value ≥ 0:
the per-factor bonuses can offset penalties but the clamped total is never
negative. -/
theorem efficiencyPenalty_never_negative (spec : CarSpec) :
    0 ≤ calculateEfficiencyPenalty spec :=
  le_max_left 0 _

/-- C7: for every record with electric fuel type, absent mileage, and
positive range and battery capacity, `calculateRealWorldEfficiency`
returns `range * 0.75 / batteryCapacity`. -/
theorem ev_efficiency_formula (spec : CarSpec) (r b : ℚ)
    (hm : spec.mileage = none) (hf : spec.fuelType = some "electric")
    (hr : spec.range = some r) (hrpos : 0 < r)
    (hb : spec.batteryCapacity = some b) (hbpos : 0 < b) :
    calculateRealWorldEfficiency spec = r * 0.75 / b := by
  unfold calculateRealWorldEfficiency
  rw [hm, hf, hr, hb]
  simp [truthyQ, ne_of_gt hrpos, ne_of_gt hbpos]

/-- C7 witness: on `evSpec` the formula gives (300 × 0.75) / 40 = 5.625. -/
theorem ev_efficiency_witness : calculateRealWorldEfficiency evSpec = 5.625 := by
  rw [ev_efficiency_formula evSpec 300 40 rfl rfl rfl (by norm_num) rfl (by norm_num)]
  norm_num

/-- C4 counterexample: raising `ncapStars` from 0 to 1 with all other
fields fixed drops the safety score from 0.6 to 0.2, so
`calculateSafetyScore` is not monotonically non-decreasing in `ncapStars`
across the transition from 0 stars to positive stars. -/
theorem safety_not_monotone_at_zero_star_transition :
    calculateSafetyScore zeroStarFeatureSpec = 0.6
    ∧ calculateSafetyScore { zeroStarFeatureSpec with ncapStars := some 1 } = 0.2
    ∧ ¬ (calculateSafetyScore zeroStarFeatureSpec
        ≤ calculateSafetyScore { zeroStarFeatureSpec with ncapStars := some 1 }) := by
  have h1 : calculateSafetyScore zeroStarFeatureSpec = 0.6 := by
    norm_num [calculateSafetyScore, safetyFeatureSum, zeroStarFeatureSpec, truthyQ,
      truthyB, jsMin]
  have h2 : calculateSafetyScore { zeroStarFeatureSpec with ncapStars := some 1 } = 0.2 := by
    norm_num [calculateSafetyScore, safetyFeatureSum, zeroStarFeatureSpec, truthyQ,
      truthyB, jsMin]
  refine ⟨h1, h2, ?_⟩
  rw [h1, h2]
  norm_num

/-- C4 amended: with all other fields fixed, `calculateSafetyScore` is
monotonically non-decreasing in `ncapStars` over positive star counts
(the 0-to-positive transition can decrease it), and when `ncapStars` is
absent or 0 the feature-derived safety score never exceeds 0.6. -/
theorem safety_monotone_amended :
    (∀ (spec : CarSpec) (s1 s2 : ℚ), 0 < s1 → s1 ≤ s2 →
      calculateSafetyScore { spec with ncapStars := some s1 }
        ≤ calculateSafetyScore { spec with ncapStars := some s2 })
    ∧ (∀ spec : CarSpec, spec.ncapStars = none ∨ spec.ncapStars = some 0 →
      calculateSafetyScore spec ≤ 0.6) := by
  constructor
  · intro spec s1 s2 h1 h12
    have h2 : 0 < s2 := lt_of_lt_of_le h1 h12
    unfold calculateSafetyScore
    rw [if_pos ⟨by simp [truthyQ, ne_of_gt h1], by simpa using h1⟩,
      if_pos ⟨by simp [truthyQ, ne_of_gt h2], by simpa using h2⟩]
    simp only [Option.getD_some]
    exact min_le_min (by linarith) le_rfl
  · intro spec h
    unfold calculateSafetyScore
    rcases h with h | h
    · rw [if_neg (by simp [h, truthyQ])]
      exact min_le_right _ _
    · rw [if_neg (by simp [h, truthyQ])]
      exact min_le_right _ _

/-- C4 witness: the amended theorem applied at stars 2 ≤ 3 over the empty
record, and the cap at the empty record. -/
theorem safety_monotone_amended_witness :
    ((0:ℚ) < 2 ∧ (2:ℚ) ≤ 3
      ∧ calculateSafetyScore { emptySpec with ncapStars := some 2 }
          ≤ calculateSafetyScore { emptySpec with ncapStars := some 3 })
    ∧ calculateSafetyScore emptySpec ≤ 0.6 :=
  ⟨⟨by norm_num, by norm_num,
    safety_monotone_amended.1 emptySpec 2 3 (by norm_num) (by norm_num)⟩,
   safety_monotone_amended.2 emptySpec (Or.inl rfl)⟩

/-- C6: each of the four sub-score calculators returns a value in [0,1]:
efficiency and safety for every record, value-for-money and
performance-per-efficiency for every record and every pair of input
sub-scores in [0,1]. -/
theorem subscores_in_unit_interval :
    (∀ spec : CarSpec,
      0 ≤ calculateEfficiencyScore spec ∧ calculateEfficiencyScore spec ≤ 1)
    ∧ (∀ spec : CarSpec,
      0 ≤ calculateSafetyScore spec ∧ calculateSafetyScore spec ≤ 1)
    ∧ (∀ (spec : CarSpec) (e s : ℚ), 0 ≤ e → e ≤ 1 → 0 ≤ s → s ≤ 1 →
      0 ≤ calculateValueScore spec e s ∧ calculateValueScore spec e s ≤ 1)
    ∧ (∀ (spec : CarSpec) (e : ℚ), 0 ≤ e → e ≤ 1 →
      0 ≤ calculatePerformancePerEfficiencyScore spec e
        ∧ calculatePerformancePerEfficiencyScore spec e ≤ 1) :=
  ⟨efficiencyScore_bounds, safetyScore_bounds,
   fun spec _ _ he0 he1 hs0 hs1 => valueScore_bounds spec he0 he1 hs0 hs1,
   fun spec _ he0 he1 => perfEffScore_bounds spec he0 he1⟩

/-- C6 witness: the four bounds instantiated at the empty record with
input sub-scores 1/2. -/
theorem subscores_in_unit_interval_witness :
    (0 ≤ calculateEfficiencyScore emptySpec ∧ calculateEfficiencyScore emptySpec ≤ 1)
    ∧ (0 ≤ calculateSafetyScore emptySpec ∧ calculateSafetyScore emptySpec ≤ 1)
    ∧ ((0:ℚ) ≤ 1/2 ∧ (1/2:ℚ) ≤ 1
      ∧ 0 ≤ calculateValueScore emptySpec (1/2) (1/2)
      ∧ calculateValueScore emptySpec (1/2) (1/2) ≤ 1)
    ∧ (0 ≤ calculatePerformancePerEfficiencyScore emptySpec (1/2)
      ∧ calculatePerformancePerEfficiencyScore emptySpec (1/2) ≤ 1) :=
  ⟨subscores_in_unit_interval.1 emptySpec,
   subscores_in_unit_interval.2.1 emptySpec,
   ⟨by norm_num, by norm_num,
    subscores_in_unit_interval.2.2.1 emptySpec (1/2) (1/2)
      (by norm_num) (by norm_num) (by norm_num) (by norm_num)⟩,
   subscores_in_unit_interval.2.2.2 emptySpec (1/2) (by norm_num) (by norm_num)⟩

/-- C8 counterexample: on the scenario record the efficiency penalty is 4,
not approximately −0.5 (it is never negative), and the real-world
efficiency is 12.032, not approximately 12.8. -/
theorem c8_scenario_counterexample :
    calculateEfficiencyPenalty c8spec = 4
    ∧ ¬ (calculateEfficiencyPenalty c8spec < 0)
    ∧ calculateRealWorldEfficiency c8spec = 12.032
    ∧ (12.032 : ℚ) < 12.8 - 0.5 := by
  refine ⟨penalty_c8, ?_, realWorldEfficiency_c8, by norm_num⟩
  rw [penalty_c8]
  norm_num

/-- C8 amended: on the scenario record the penalty is 4 (hatchback body
penalty 2 plus the transmission lookup fallback 2: the `manual` entry `0`
is falsy, and displacement 1197, kerb weight 950, 4 cylinders and 5 gears
all contribute nothing), and the real-world efficiency comes from the
penalty-based estimation branch: 16 × (1 − 4×0.015) × 0.8 = 12.032. -/
theorem c8_scenario_amended :
    calculateEfficiencyPenalty c8spec = 4
    ∧ calculateRealWorldEfficiency c8spec = 16 * (1 - 4 * 0.015) * 0.8
    ∧ calculateRealWorldEfficiency c8spec = 12.032 :=
  ⟨penalty_c8, by rw [realWorldEfficiency_c8]; norm_num, realWorldEfficiency_c8⟩

/-- C9 counterexample: `hybrid` has no entry in the configured fuel price
table {petrol, diesel, cng, electricity}, yet `calculateCostPerKm` is not
`null` for a hybrid record: it uses the petrol price (110/17 with the
default prices), contradicting "null exactly when ... the record's fuel
type has no configured price". -/
theorem costPerKm_hybrid_counterexample :
    ("hybrid" ∉ ["petrol", "diesel", "cng", "electricity"])
    ∧ calculateCostPerKm hybridSpec defaultFuelPrices
        = some (defaultFuelPrices.petrol / calculateRealWorldEfficiency hybridSpec)
    ∧ calculateCostPerKm hybridSpec defaultFuelPrices = some (110 / 17) := by
  have h : calculateCostPerKm hybridSpec defaultFuelPrices
      = some (defaultFuelPrices.petrol / calculateRealWorldEfficiency hybridSpec) := by
    unfold calculateCostPerKm
    rw [if_neg (realWorldEfficiency_ne_zero hybridSpec)]
    unfold costPerKmByFuel
    rw [if_neg (by decide), if_neg (by decide), if_neg (by decide),
      if_pos (show hybridSpec.fuelType = some "hybrid" from rfl)]
  refine ⟨by decide, h, ?_⟩
  rw [h, realWorldEfficiency_hybridSpec]
  norm_num [defaultFuelPrices]

/-- C9 amended: for every record and fuel price table, the cost-per-km is
`null` exactly when the fuel type is not one of petrol, diesel, cng,
hybrid, electric (the real-world efficiency is never falsy, so the
efficiency guard never fires); for the four fuels with a configured price
it is that price divided by the real-world efficiency, and for hybrid it
is the petrol price divided by the real-world efficiency. -/
theorem costPerKm_characterized (spec : CarSpec) (fp : FuelPrices) :
    (calculateCostPerKm spec fp = none ↔
      (spec.fuelType ≠ some "petrol" ∧ spec.fuelType ≠ some "diesel"
        ∧ spec.fuelType ≠ some "cng" ∧ spec.fuelType ≠ some "hybrid"
        ∧ spec.fuelType ≠ some "electric"))
    ∧ (spec.fuelType = some "petrol" →
        calculateCostPerKm spec fp = some (fp.petrol / calculateRealWorldEfficiency spec))
    ∧ (spec.fuelType = some "diesel" →
        calculateCostPerKm spec fp = some (fp.diesel / calculateRealWorldEfficiency spec))
    ∧ (spec.fuelType = some "cng" →
        calculateCostPerKm spec fp = some (fp.cng / calculateRealWorldEfficiency spec))
    ∧ (spec.fuelType = some "hybrid" →
        calculateCostPerKm spec fp = some (fp.petrol / calculateRealWorldEfficiency spec))
    ∧ (spec.fuelType = some "electric" →
        calculateCostPerKm spec fp = some (fp.electricity / calculateRealWorldEfficiency spec)) := by
  have hne := realWorldEfficiency_ne_zero spec
  unfold calculateCostPerKm costPerKmByFuel
  rw [if_neg hne]
  refine ⟨⟨?_, ?_⟩, ?_, ?_, ?_, ?_, ?_⟩
  · intro h
    refine ⟨fun heq => ?_, fun heq => ?_, fun heq => ?_, fun heq => ?_, fun heq => ?_⟩
    · rw [heq, if_pos rfl] at h
      exact Option.noConfusion h
    · rw [heq, if_neg (by decide), if_pos rfl] at h
      exact Option.noConfusion h
    · rw [heq, if_neg (by decide), if_neg (by decide), if_pos rfl] at h
      exact Option.noConfusion h
    · rw [heq, if_neg (by decide), if_neg (by decide), if_neg (by decide), if_pos rfl] at h
      exact Option.noConfusion h
    · rw [heq, if_neg (by decide), if_neg (by decide), if_neg (by decide),
        if_neg (by decide), if_pos rfl] at h
      exact Option.noConfusion h
  · intro h
    rw [if_neg h.1, if_neg h.2.1, if_neg h.2.2.1, if_neg h.2.2.2.1, if_neg h.2.2.2.2]
  · intro h
    rw [h, if_pos rfl]
  · intro h
    rw [h, if_neg (by decide), if_pos rfl]
  · intro h
    rw [h, if_neg (by decide), if_neg (by decide), if_pos rfl]
  · intro h
    rw [h, if_neg (by decide), if_neg (by decide), if_neg (by decide), if_pos rfl]
  · intro h
    rw [h, if_neg (by decide), if_neg (by decide), if_neg (by decide), if_neg (by decide),
      if_pos rfl]

/-- C9 witness: the amended characterization applied to the hybrid record
and to a petrol record. -/
theorem costPerKm_characterized_witness :
    calculateCostPerKm hybridSpec defaultFuelPrices
      = some (defaultFuelPrices.petrol / calculateRealWorldEfficiency hybridSpec)
    ∧ calculateCostPerKm c8spec defaultFuelPrices
      = some (defaultFuelPrices.petrol / calculateRealWorldEfficiency c8spec) :=
  ⟨(costPerKm_characterized hybridSpec defaultFuelPrices).2.2.2.2.1 rfl,
   (costPerKm_characterized c8spec defaultFuelPrices).2.1 rfl⟩


theorem parseNumber_negfive : parseNumber (JSVal.str "-5") = some (-5) := by
  show (if ("-5" : String) = "" then none else jsParseFloat (stripNonNumeric "-5")) = some (-5)
  rw [if_neg (by decide), (show stripNonNumeric "-5" = "-5" from by decide)]
  unfold jsParseFloat
  rw [(show ("-5" : String).data = ['-', '5'] from by decide)]
  norm_num [List.head?, List.takeWhile, List.dropWhile, List.isEmpty,
    (show Char.isDigit '5' = true from by decide),
    (show digitsToNat ['5'] = 5 from by decide),
    (show digitsToNat ([] : List Char) = 0 from rfl)]

theorem validateSpec_rawBad_mileage : (validateSpec rawBad).mileage = JSVal.num (-5) := by
  show coerceNum (JSVal.str "-5") = JSVal.num (-5)
  unfold coerceNum
  rw [if_neg (by decide), parseNumber_negfive]

theorem coerceNum_numOrAbsent (v : JSVal) : numOrAbsent (coerceNum v) := by
  unfold coerceNum
  split
  · next h =>
    rcases h with h | h
    · exact Or.inr (Or.inl h)
    · exact Or.inr (Or.inr h)
  · rcases hp : parseNumber v with _ | q
    · exact Or.inr (Or.inl rfl)
    · exact Or.inl ⟨q, rfl⟩

/-- C3 counterexample: on the raw bag with mileage `"-5"` and displacement
`"abc"`, `validateSpec` produces a record whose mileage is the negative
number −5 and whose displacement is still the non-numeric string `"abc"`,
so the claimed invariant (every numeric field a finite non-negative number
or absent) fails. -/
theorem validateSpec_invariant_counterexample :
    (validateSpec rawBad).mileage = JSVal.num (-5)
    ∧ (validateSpec rawBad).displacement = JSVal.str "abc"
    ∧ ¬ allNumericFieldsNonnegOrAbsent (validateSpec rawBad) := by
  refine ⟨validateSpec_rawBad_mileage, rfl, fun hall => ?_⟩
  have h1 := hall.1
  rw [validateSpec_rawBad_mileage] at h1
  rcases h1 with ⟨q, hq, heq⟩ | h | h
  · cases heq
    norm_num at hq
  · exact JSVal.noConfusion h
  · exact JSVal.noConfusion h

/-- C3 amended: for every raw attribute bag, each of the eight fields that
`validateSpec` coerces (mileage, range, batteryCapacity, power, kerbWeight,
price, ncapStars, airbags) ends up a finite number or absent — never a
`NaN`-like leftover, though it may be negative — while the other numeric
fields (displacement, cylinders, torque, gears, length, width, height,
groundClearance) pass through unvalidated. -/
theorem validateSpec_coerces_listed_fields (r : RawSpec) :
    numOrAbsent (validateSpec r).mileage ∧ numOrAbsent (validateSpec r).range
    ∧ numOrAbsent (validateSpec r).batteryCapacity ∧ numOrAbsent (validateSpec r).power
    ∧ numOrAbsent (validateSpec r).kerbWeight ∧ numOrAbsent (validateSpec r).price
    ∧ numOrAbsent (validateSpec r).ncapStars ∧ numOrAbsent (validateSpec r).airbags
    ∧ (validateSpec r).displacement = r.displacement
    ∧ (validateSpec r).cylinders = r.cylinders
    ∧ (validateSpec r).torque = r.torque
    ∧ (validateSpec r).gears = r.gears
    ∧ (validateSpec r).length = r.length
    ∧ (validateSpec r).width = r.width
    ∧ (validateSpec r).height = r.height
    ∧ (validateSpec r).groundClearance = r.groundClearance :=
  ⟨coerceNum_numOrAbsent _, coerceNum_numOrAbsent _, coerceNum_numOrAbsent _,
   coerceNum_numOrAbsent _, coerceNum_numOrAbsent _, coerceNum_numOrAbsent _,
   coerceNum_numOrAbsent _, coerceNum_numOrAbsent _,
   rfl, rfl, rfl, rfl, rfl, rfl, rfl, rfl⟩

theorem optNonneg_getD {o : Option ℚ} (h : optNonneg o) : 0 ≤ o.getD 0 := by
  cases o with
  | none => exact le_refl 0
  | some q => exact h q rfl

theorem realWorldEfficiency_pos (spec : CarSpec) (h : NonnegSpec spec) :
    0 < calculateRealWorldEfficiency spec := by
  unfold calculateRealWorldEfficiency
  split
  · next hm =>
    have hm0 : spec.mileage.getD 0 ≠ 0 := truthyQ_getD_ne_zero hm
    have hmp : 0 < spec.mileage.getD 0 := lt_of_le_of_ne (optNonneg_getD h.1) (Ne.symm hm0)
    split_ifs <;> exact mul_pos hmp (by norm_num)
  · split
    · next hc =>
      have hr : 0 < spec.range.getD 0 :=
        lt_of_le_of_ne (optNonneg_getD h.2.1) (Ne.symm (truthyQ_getD_ne_zero hc.2.1))
      have hb : 0 < spec.batteryCapacity.getD 0 :=
        lt_of_le_of_ne (optNonneg_getD h.2.2.1) (Ne.symm (truthyQ_getD_ne_zero hc.2.2))
      exact div_pos (mul_pos hr (by norm_num)) hb
    · exact mul_pos (mul_pos (baseEfficiencyOf_pos spec.fuelType)
        (penaltyFactor_pos spec)) (realWorldFactorLookup_pos spec.fuelType)

/-- C10: for every record whose numeric fields are each absent or
non-negative, `calculateRealWorldEfficiency` is strictly positive; hence
the no-efficiency-data fallback branch of `calculateEfficiencyScore` and
the null-on-falsy-efficiency branch of `calculateCostPerKm` are not taken,
and the `realWorldEfficiency` metric of the score result is the (never
null) real-world efficiency itself. -/
theorem realWorldEfficiency_always_positive (spec : CarSpec) (h : NonnegSpec spec)
    (w : Weights) (fp : FuelPrices) :
    0 < calculateRealWorldEfficiency spec
    ∧ calculateEfficiencyScore spec
        = effScoreFromBenchmarks spec (calculateRealWorldEfficiency spec)
    ∧ calculateCostPerKm spec fp
        = costPerKmByFuel spec fp (calculateRealWorldEfficiency spec)
    ∧ (calculateCompositeScore spec w fp).metrics.realWorldEfficiency
        = calculateRealWorldEfficiency spec := by
  have hpos := realWorldEfficiency_pos spec h
  refine ⟨hpos, ?_, ?_, rfl⟩
  · unfold calculateEfficiencyScore
    rw [if_neg (ne_of_gt hpos)]
  · unfold calculateCostPerKm
    rw [if_neg (ne_of_gt hpos)]

/-- C10 witness: the theorem applied to the all-absent record (vacuously
non-negative) with the default weights and fuel prices. -/
theorem realWorldEfficiency_always_positive_witness :
    NonnegSpec emptySpec ∧ 0 < calculateRealWorldEfficiency emptySpec :=
  have hn : NonnegSpec emptySpec :=
    ⟨fun _ h => Option.noConfusion h, fun _ h => Option.noConfusion h,
     fun _ h => Option.noConfusion h, fun _ h => Option.noConfusion h,
     fun _ h => Option.noConfusion h, fun _ h => Option.noConfusion h,
     fun _ h => Option.noConfusion h, fun _ h => Option.noConfusion h,
     fun _ h => Option.noConfusion h, fun _ h => Option.noConfusion h,
     fun _ h => Option.noConfusion h, fun _ h => Option.noConfusion h,
     fun _ h => Option.noConfusion h, fun _ h => Option.noConfusion h,
     fun _ h => Option.noConfusion h, fun _ h => Option.noConfusion h⟩
  ⟨hn, (realWorldEfficiency_always_positive emptySpec hn defaultWeights defaultFuelPrices).1⟩

end CarScore
